import Mathlib

/-
Verification development for a minimal HTTP server (src/app.py):
one JSON API route returning a hardcoded list of qubit records, a static
file mount serving a `dist` directory, and a uvicorn entry point.

Python numbers are embedded as `PyNum` (Python distinguishes `int` from
`float`; the float literals of the source are represented by their exact
decimal value, mantissa times 10^(-exp), which is the value the JSON text
carries — Python's float repr round-trips these literals to the same text).
The FastAPI / Starlette routing and StaticFiles machinery is not part of
this repository; those parts are modelled from the specification's words,
and each such definition is marked `Modelled from the spec`.
-/

/-- A Python numeric value: an `int`, or a `float` written as a decimal
literal with mantissa `m` and `e` digits after the point (value m / 10^e). -/
inductive PyNum where
  | int (n : Int)
  | float (m : Int) (e : Nat)
deriving DecidableEq, Repr

/-- Whether a Python number is a `float` (as opposed to an `int`). -/
def PyNum.isFloat : PyNum → Bool
  | .int _ => false
  | .float _ _ => true

/-- Decimal digits of a natural number, as characters. -/
def natDigits (n : Nat) : List Char := Nat.toDigits 10 n

/-- Render a Python number the way Python's json module serializes it:
an `int` as its decimal digits, a `float` with a decimal point (a float
with no fractional digits prints as `x.0`). -/
def renderNum : PyNum → List Char
  | .int n => (if n < 0 then ['-'] else []) ++ natDigits n.natAbs
  | .float m e =>
    let sign := if m < 0 then ['-'] else []
    if e = 0 then sign ++ natDigits m.natAbs ++ ['.', '0']
    else
      let ds := natDigits m.natAbs
      let ds := if ds.length < e + 1 then List.replicate (e + 1 - ds.length) '0' ++ ds else ds
      sign ++ ds.take (ds.length - e) ++ ['.'] ++ ds.drop (ds.length - e)

/-- JSON text of a Python number. -/
def jsonEncodeNum (n : PyNum) : String := String.mk (renderNum n)

/-- Numeric value of a decimal digit character, `none` for a non-digit. -/
def digitVal (c : Char) : Option Nat :=
  if '0' ≤ c ∧ c ≤ '9' then some (c.toNat - '0'.toNat) else none

def parseDigitsAux : List Char → Nat → Option Nat
  | [], acc => some acc
  | c :: cs, acc =>
    match digitVal c with
    | some d => parseDigitsAux cs (acc * 10 + d)
    | none => none

/-- Parse a nonempty all-digit string into a natural number. -/
def parseDigits : List Char → Option Nat
  | [] => none
  | cs => parseDigitsAux cs 0

/-- Split a character list at the first decimal point, if any. -/
def splitOnDot : List Char → List Char × Option (List Char)
  | [] => ([], none)
  | c :: cs =>
    if c = '.' then ([], some cs)
    else
      let (a, b) := splitOnDot cs
      (c :: a, b)

/-- Decode a JSON number literal: no decimal point means an `int`, a decimal
point means a `float` whose mantissa collects all digits. -/
def jsonDecodeNum (s : String) : Option PyNum :=
  let (neg, cs) :=
    match s.data with
    | '-' :: rest => (true, rest)
    | cs => (false, cs)
  match splitOnDot cs with
  | (ip, none) =>
    (parseDigits ip).map (fun v => PyNum.int (if neg then -(v : Int) else (v : Int)))
  | (ip, some fp) =>
    match parseDigits ip, parseDigits fp with
    | some iv, some fv =>
      let m : Nat := iv * 10 ^ fp.length + fv
      some (PyNum.float (if neg then -(m : Int) else (m : Int)) fp.length)
    | _, _ => none

/-- A JSON encode/decode round trip at a number returns the same value. -/
def numRoundTrips (n : PyNum) : Prop := jsonDecodeNum (jsonEncodeNum n) = some n

instance (n : PyNum) : Decidable (numRoundTrips n) := by
  unfold numRoundTrips; infer_instance

/-- One record of the handler's `results` list (src/app.py lines 12-13). -/
structure QubitRecord where
  id : Int
  state : String
  amplitude : PyNum
  phase : PyNum
deriving DecidableEq, Repr

/-- The `results` list returned by the handler of GET /api/qubits
(src/app.py lines 9-15): two literal records. `0.707`, `0.5` and `1.57`
are Python float literals; the first record's phase is the int literal `0`. -/
def get_qubits : List QubitRecord :=
  [ { id := 1, state := "entangled", amplitude := .float 707 3, phase := .int 0 },
    { id := 2, state := "superposition", amplitude := .float 5 1, phase := .float 157 2 } ]

/-- JSON text of one record, with compact separators as FastAPI's
JSONResponse emits them. -/
def encodeRecord (r : QubitRecord) : String :=
  "\x7b\"id\":" ++ jsonEncodeNum (.int r.id) ++ ",\"state\":\"" ++ r.state ++
    "\",\"amplitude\":" ++ jsonEncodeNum r.amplitude ++ ",\"phase\":" ++
    jsonEncodeNum r.phase ++ "\x7d"

/-- JSON body of the API response: the dict with the single key `results`. -/
def qubitsBody : String :=
  "\x7b\"results\":[" ++ String.intercalate "," (get_qubits.map encodeRecord) ++ "]\x7d"

/-- An HTTP request as the application sees it. -/
structure Request where
  method : String
  path : String
  query : List (String × String)
  headers : List (String × String)
  body : String
deriving Repr

/-- An HTTP response: status code and body. -/
structure Response where
  status : Nat
  body : String
deriving DecidableEq, Repr

/-- Which component produced the response. -/
inductive HandledBy where
  | api
  | staticMount
deriving DecidableEq, Repr

/-- The filesystem under the static root: an association list from request
paths to file contents, and the list of directory paths. -/
structure FS where
  files : List (String × String)
  dirs : List String
deriving Repr

/-- Modelled from the spec: the index document of a directory path is
`index.html` inside it (StaticFiles html mode is not in src/). -/
def indexPath (p : String) : String :=
  if p.data.getLast? = some '/' then p ++ "index.html" else p ++ "/index.html"

/-- Reading a file is the only filesystem operation; it returns the
(unchanged) filesystem alongside the result. -/
def readFile (fs : FS) (p : String) : Option String × FS :=
  (fs.files.lookup p, fs)

/-- Querying whether a path is a directory; also a pure read. -/
def isDir (fs : FS) (p : String) : Bool × FS :=
  (fs.dirs.contains p, fs)

/-- Modelled from the spec: the static mount (StaticFiles, not in src/)
resolves the request path against the root: an existing file is returned
with status 200, a directory is served its index document when present,
and anything else is a 404 not-found response. -/
def staticServe (fs : FS) (p : String) : Response × FS :=
  let (c, fs) := readFile fs p
  match c with
  | some body => ({ status := 200, body := body }, fs)
  | none =>
    let (d, fs) := isDir fs p
    if d then
      let (i, fs) := readFile fs (indexPath p)
      match i with
      | some body => ({ status := 200, body := body }, fs)
      | none => ({ status := 404, body := "Not Found" }, fs)
    else
      ({ status := 404, body := "Not Found" }, fs)

/-- The response of the API route: status 200 with the JSON body. -/
def apiResponse : Response := { status := 200, body := qubitsBody }

/-- Modelled from the spec: request dispatch evaluates the API route first
by exact path match; an unmatched request falls through to the static
mount (route registration order is src/app.py lines 8 and 18; the router
itself is framework code not in src/). The handler of the API route takes
no arguments (src/app.py line 9), so its response ignores the request. -/
def dispatch (fs : FS) (req : Request) : Response × HandledBy × FS :=
  if req.path = "/api/qubits" then (apiResponse, .api, fs)
  else
    let (r, fs) := staticServe fs req.path
    (r, .staticMount, fs)

/-- Modelled from the spec: at process start the static root directory must
exist; if it does not, startup fails fatally with no application to serve
requests, and no recovery is attempted (StaticFiles checks its directory at
construction; that check is framework code not in src/). -/
def startup (distExists : Bool) (fs : FS) :
    Except String (Request → Response × HandledBy × FS) :=
  if distExists then Except.ok (dispatch fs) else Except.error "Directory dist does not exist"

/-- The arguments of the uvicorn.run call in the main block (src/app.py
line 21): literal host and port, no environment variable is read. -/
structure UvicornArgs where
  host : String
  port : Nat
deriving DecidableEq, Repr

/-- The entry point's server configuration as a function of the process
environment (src/app.py lines 20-21): the source passes the literals
"0.0.0.0" and 8000 and consults no environment variable. -/
def mainArgs (_env : List (String × String)) : UvicornArgs :=
  { host := "0.0.0.0", port := 8000 }

/-- Concrete empty static root. -/
def emptyFS : FS := { files := [], dirs := [] }

/-- Concrete static root holding an index document and one asset. -/
def sampleFS : FS :=
  { files := [("/index.html", "<h1>Hello</h1>"), ("/app.js", "console.log(1)")],
    dirs := ["/"] }

theorem staticServe_file (fs : FS) (p : String) (c : String)
    (h : fs.files.lookup p = some c) :
    staticServe fs p = ({ status := 200, body := c }, fs) := by
  simp [staticServe, readFile, isDir, h]

theorem staticServe_index (fs : FS) (p : String) (c : String)
    (hf : fs.files.lookup p = none) (hd : fs.dirs.contains p = true)
    (hi : fs.files.lookup (indexPath p) = some c) :
    staticServe fs p = ({ status := 200, body := c }, fs) := by
  have hm : p ∈ fs.dirs := by simpa using hd
  simp [staticServe, readFile, isDir, hf, hm, hi]

theorem staticServe_miss (fs : FS) (p : String)
    (hf : fs.files.lookup p = none) (hi : fs.files.lookup (indexPath p) = none) :
    staticServe fs p = ({ status := 404, body := "Not Found" }, fs) := by
  by_cases hd : p ∈ fs.dirs <;>
    simp [staticServe, readFile, isDir, hf, hi, hd]

theorem staticServe_cases (fs : FS) (p : String) :
    (∃ c, staticServe fs p = ({ status := 200, body := c }, fs) ∧
      (fs.files.lookup p = some c ∨ fs.files.lookup (indexPath p) = some c)) ∨
    staticServe fs p = ({ status := 404, body := "Not Found" }, fs) := by
  cases hf : fs.files.lookup p with
  | some c => exact Or.inl ⟨c, staticServe_file fs p c hf, Or.inl rfl⟩
  | none =>
    by_cases hd : p ∈ fs.dirs
    · cases hi : fs.files.lookup (indexPath p) with
      | some c =>
        refine Or.inl ⟨c, staticServe_index fs p c hf (by simpa using hd) hi, Or.inr rfl⟩
      | none => exact Or.inr (staticServe_miss fs p hf hi)
    · right; simp [staticServe, readFile, isDir, hf, hd]

/-- The two records exactly as the claim and §6 of the spec write them
(spec-side definition, to be compared with the source's `get_qubits`). -/
def specQubitRecords : List QubitRecord :=
  [ { id := 1, state := "entangled", amplitude := .float 707 3, phase := .int 0 },
    { id := 2, state := "superposition", amplitude := .float 5 1, phase := .float 157 2 } ]

/-- Concrete GET request on the API path. -/
def reqApi : Request :=
  { method := "GET", path := "/api/qubits", query := [], headers := [], body := "" }

/-- A second GET request on the API path, with different query, headers and body. -/
def reqApi2 : Request :=
  { method := "GET", path := "/api/qubits", query := [("page", "2")],
    headers := [("X-Debug", "1")], body := "ignored" }

/-- Concrete GET request for a static asset. -/
def reqJs : Request :=
  { method := "GET", path := "/app.js", query := [], headers := [], body := "" }

/-- Concrete GET request for the root path. -/
def reqRoot : Request :=
  { method := "GET", path := "/", query := [], headers := [], body := "" }

/-- C1: every HTTP GET request on /api/qubits is answered with status 200
and the JSON body of exactly the two literal records, the record with id 1
before the record with id 2. -/
theorem c1_api_qubits_response (fs : FS) (req : Request)
    (_hm : req.method = "GET") (hp : req.path = "/api/qubits") :
    (dispatch fs req).1 = { status := 200, body := qubitsBody } ∧
    qubitsBody = "\x7b\"results\":[\x7b\"id\":1,\"state\":\"entangled\",\"amplitude\":0.707,\"phase\":0\x7d,\x7b\"id\":2,\"state\":\"superposition\",\"amplitude\":0.5,\"phase\":1.57\x7d]\x7d" ∧
    get_qubits = specQubitRecords ∧
    get_qubits.length = 2 ∧
    (get_qubits.get ⟨0, by decide⟩).id = 1 ∧
    (get_qubits.get ⟨1, by decide⟩).id = 2 := by
  refine ⟨?_, by decide, rfl, rfl, rfl, rfl⟩
  simp [dispatch, hp, apiResponse]

theorem c1_api_qubits_response_witness :
    (dispatch emptyFS reqApi).1 = { status := 200, body := qubitsBody } :=
  (c1_api_qubits_response emptyFS reqApi rfl rfl).1

/-- C2: the API route is deterministic and input-independent — any two GET
invocations on /api/qubits, whatever their query parameters, headers or
bodies (and whatever the filesystem), produce identical response bodies. -/
theorem c2_api_deterministic (fs₁ fs₂ : FS) (r₁ r₂ : Request)
    (_hm₁ : r₁.method = "GET") (_hm₂ : r₂.method = "GET")
    (hp₁ : r₁.path = "/api/qubits") (hp₂ : r₂.path = "/api/qubits") :
    (dispatch fs₁ r₁).1.body = (dispatch fs₂ r₂).1.body := by
  simp [dispatch, hp₁, hp₂]

theorem c2_api_deterministic_witness :
    (dispatch emptyFS reqApi).1.body = (dispatch sampleFS reqApi2).1.body :=
  c2_api_deterministic emptyFS sampleFS reqApi reqApi2 rfl rfl rfl rfl

/-- C3: dispatch tries the API route first by exact path match; exactly the
requests whose path is not /api/qubits are handled by the static mount, and
every such request resolves to file contents (status 200) or a not-found
response (status 404). -/
theorem c3_dispatch_order (fs : FS) (req : Request) :
    ((dispatch fs req).2.1 = HandledBy.staticMount ↔ req.path ≠ "/api/qubits") ∧
    (req.path ≠ "/api/qubits" →
      (∃ c, (dispatch fs req).1 = { status := 200, body := c } ∧
        (fs.files.lookup req.path = some c ∨ fs.files.lookup (indexPath req.path) = some c)) ∨
      (dispatch fs req).1 = { status := 404, body := "Not Found" }) := by
  by_cases hp : req.path = "/api/qubits"
  · refine ⟨?_, fun h => absurd hp h⟩
    simp [dispatch, hp]
  · refine ⟨by simp [dispatch, hp], fun _ => ?_⟩
    rcases staticServe_cases fs req.path with ⟨c, hc, hsrc⟩ | hc
    · exact Or.inl ⟨c, by simp [dispatch, hp, hc], hsrc⟩
    · exact Or.inr (by simp [dispatch, hp, hc])

theorem c3_dispatch_order_witness :
    ((dispatch sampleFS reqApi).2.1 = HandledBy.staticMount ↔ reqApi.path ≠ "/api/qubits") ∧
    ((∃ c, (dispatch sampleFS reqJs).1 = { status := 200, body := c } ∧
      (sampleFS.files.lookup reqJs.path = some c ∨
        sampleFS.files.lookup (indexPath reqJs.path) = some c)) ∨
      (dispatch sampleFS reqJs).1 = { status := 404, body := "Not Found" }) :=
  ⟨(c3_dispatch_order sampleFS reqApi).1,
    (c3_dispatch_order sampleFS reqJs).2 (by decide)⟩

/-- C4: a GET request off the API path is served the existing file at its
path with status 200 and the file's exact contents; when neither a file at
the path nor an index document for it exists, the status is 404. -/
theorem c4_static_file_or_404 (fs : FS) (req : Request)
    (_hm : req.method = "GET") (hp : req.path ≠ "/api/qubits") :
    (∀ c, fs.files.lookup req.path = some c →
      (dispatch fs req).1 = { status := 200, body := c }) ∧
    (fs.files.lookup req.path = none →
      fs.files.lookup (indexPath req.path) = none →
      (dispatch fs req).1.status = 404) := by
  constructor
  · intro c hc
    simp [dispatch, hp, staticServe_file fs req.path c hc]
  · intro h₁ h₂
    simp [dispatch, hp, staticServe_miss fs req.path h₁ h₂]

theorem c4_static_file_or_404_witness :
    (dispatch sampleFS reqJs).1 = { status := 200, body := "console.log(1)" } :=
  (c4_static_file_or_404 sampleFS reqJs rfl (by decide)).1 "console.log(1)" rfl

/-- C5: a GET request on a directory path (the root path included) whose
directory holds an index document is served that index document with
status 200. -/
theorem c5_directory_index (fs : FS) (req : Request) (c : String)
    (_hm : req.method = "GET") (hp : req.path ≠ "/api/qubits")
    (hd : fs.dirs.contains req.path = true)
    (hf : fs.files.lookup req.path = none)
    (hi : fs.files.lookup (indexPath req.path) = some c) :
    (dispatch fs req).1 = { status := 200, body := c } := by
  simp [dispatch, hp, staticServe_index fs req.path c hf hd hi]

theorem c5_directory_index_witness :
    (dispatch sampleFS reqRoot).1 = { status := 200, body := "<h1>Hello</h1>" } :=
  c5_directory_index sampleFS reqRoot "<h1>Hello</h1>" rfl (by decide)
    (by decide) (by decide) (by decide)

/-- C6: when the static root directory is missing at process start, startup
fails fatally and yields no request handler at all; when it exists, startup
succeeds with the dispatcher. -/
theorem c6_startup_check (distExists : Bool) (fs : FS) :
    (distExists = false →
      startup distExists fs = Except.error "Directory dist does not exist" ∧
      ∀ h, startup distExists fs ≠ Except.ok h) ∧
    (distExists = true → startup distExists fs = Except.ok (dispatch fs)) := by
  constructor
  · intro h; subst h
    exact ⟨rfl, fun _ hcontra => by simp [startup] at hcontra⟩
  · intro h; subst h; rfl

theorem c6_startup_check_witness :
    startup false emptyFS = Except.error "Directory dist does not exist" ∧
    startup true sampleFS = Except.ok (dispatch sampleFS) :=
  ⟨((c6_startup_check false emptyFS).1 rfl).1, (c6_startup_check true sampleFS).2 rfl⟩

/-- C7: invoked as the main program, the process binds the wildcard host
"0.0.0.0" (all network interfaces) at the fixed port 8000, and the
configuration does not depend on the environment. -/
theorem c7_main_binds_fixed (env : List (String × String)) :
    mainArgs env = { host := "0.0.0.0", port := 8000 } ∧
    ∀ env₂, mainArgs env = mainArgs env₂ :=
  ⟨rfl, fun _ => rfl⟩

/-- C8 counterexample: it is not the case that the amplitude and phase of
both records are floats — the first record's phase is the int literal 0. -/
theorem c8_counterexample :
    ¬ ∀ r ∈ get_qubits, r.amplitude.isFloat = true ∧ r.phase.isFloat = true := by
  decide

/-- C8 (amended): every record's amplitude is a float and all four numeric
literals (0.707, 0, 0.5, 1.57) survive a JSON encode/decode round trip
exactly; the second record's phase is a float, while the first record's
phase is the integer 0. -/
theorem c8_numeric_roundtrip :
    (∀ r ∈ get_qubits,
      r.amplitude.isFloat = true ∧ numRoundTrips r.amplitude ∧ numRoundTrips r.phase) ∧
    (get_qubits.get ⟨0, by decide⟩).phase = PyNum.int 0 ∧
    (get_qubits.get ⟨1, by decide⟩).phase.isFloat = true := by
  decide

/-- C9: no request mutates any state — dispatch returns the filesystem it
was given, unchanged, for every request; the API handler touches no state
at all and the static mount only reads. -/
theorem c9_no_mutation (fs : FS) (req : Request) :
    (dispatch fs req).2.2 = fs := by
  by_cases hp : req.path = "/api/qubits"
  · simp [dispatch, hp]
  · rcases staticServe_cases fs req.path with ⟨c, hc, _⟩ | hc <;>
      simp [dispatch, hp, hc]
